import Mathlib

/-!
Shallow embedding of `src/main.go` of the minfs docker volume plugin.

The registry state is the driver struct: the mount root and the map from
volume name to `mountInfo` (the source declares the field as `mounts` but
every method accesses it as `d.volumes`; we model the one map all methods
use, as an association list with unique keys).  External effects —
`os.Lstat`, `os.MkdirAll`, `os.RemoveAll`, and the shell-invoked
`mountVolume` / `unmountVolume` backend — are modelled as oracle
parameters giving each call's outcome (`none` = success, `some msg` =
the error text).  `Mount` and `Unmount` additionally report how many
backend mount/unmount invocations the call performed, so that claims
about backend-call counts are statable.

The embedding is faithful to the source, including two slips kept on
purpose: the duplicate-name branch of `Create` (lines 119–124) is empty,
and the `connections == 0` path of `Mount` (lines 216–238) never
increments `v.connections` after a successful backend mount.
-/

namespace Minfs

/-- Configuration of the remote Minio server (`serverConfig`, main.go:34). -/
structure serverConfig where
  endpoint : String
  bucket : String
  accessKey : String
  secretKey : String
deriving DecidableEq

/-- One `minfs` mount of a remote bucket (`mountInfo`, main.go:50).
`connections` is a Go `int`, so it is modelled as `Int`. -/
structure mountInfo where
  serverconfig : serverConfig
  mountPoint : String
  connections : Int
deriving DecidableEq

/-- `volume.Volume` of the go-plugins-helpers response payload. -/
structure Volume where
  name : String
  mountpoint : String
deriving DecidableEq

/-- `volume.Capability` of the go-plugins-helpers response payload. -/
structure Capability where
  scope : String
deriving DecidableEq

/-- `volume.Response`: zero values stand for the fields a handler leaves unset. -/
structure Response where
  err : String := ""
  mountpoint : String := ""
  volume : Option Volume := none
  volumes : List Volume := []
  capabilities : Option Capability := none
deriving DecidableEq

/-- `volume.Request`: `options = none` models a nil `Options` map. -/
structure Request where
  name : String
  options : Option (List (String × String))
deriving DecidableEq

/-- The driver state (`minfsDriver`, main.go:71): mount root plus the
name → `mountInfo` map used by every method as `d.volumes`. -/
structure minfsDriver where
  mountRoot : String
  volumes : List (String × mountInfo)
deriving DecidableEq

/-- `newMinfsDriver` (main.go:87): fresh driver with an empty map. -/
def newMinfsDriver (mountRoot : String) : minfsDriver :=
  { mountRoot := mountRoot, volumes := [] }

/-- Go map read `d.volumes[name]` on the association-list model. -/
def lookupVol : List (String × mountInfo) → String → Option mountInfo
  | [], _ => none
  | (k, v) :: rest, n => if k = n then some v else lookupVol rest n

/-- Go map write `d.volumes[name] = v` (replacing any existing entry). -/
def insertVol : List (String × mountInfo) → String → mountInfo → List (String × mountInfo)
  | [], n, v => [(n, v)]
  | (k, w) :: rest, n, v => if k = n then (n, v) :: rest else (k, w) :: insertVol rest n v

/-- Go `delete(d.volumes, name)` on the association-list model. -/
def eraseVol : List (String × mountInfo) → String → List (String × mountInfo)
  | [], _ => []
  | (k, w) :: rest, n => if k = n then rest else (k, w) :: eraseVol rest n

/-- Go map read `opts[key]` on a `map[string]string`: a missing key yields `""`. -/
def optGet : List (String × String) → String → String
  | [], _ => ""
  | (k, v) :: rest, key => if k = key then v else optGet rest key

/-- `errorResponse` (main.go:164): a response carrying only an error text. -/
def errorResponse (err : String) : Response :=
  { err := err }

/-- `responseError`, the error-response helper the later methods call. -/
def responseError (err : String) : Response :=
  { err := err }

/-- `filepath.Join(mountRoot, name)` for the clean inputs used here. -/
def filepathJoin (a b : String) : String :=
  a ++ "/" ++ b

/-- `minfsDriver.Create` (main.go:109).  Validates the name, the presence
of the options map and the four credential options, then stores a fresh
`mountInfo` under the name.  The duplicate-name branch of the source
(lines 119–124) is empty, so an existing registration is silently
overwritten. -/
def minfsDriver.Create (d : minfsDriver) (r : Request) : minfsDriver × Response :=
  if r.name = "" then
    (d, errorResponse "Name of the driver cannot be empty.Use `$ docker volume create -d <plugin-name> --name <volume-name>`")
  else
    match r.options with
    | none => (d, errorResponse "No options provided. Please refer example usage.")
    | some opts =>
      if optGet opts "endpoint" = "" then
        (d, errorResponse "endpoint option cannot be empty.")
      else if optGet opts "bucket" = "" then
        (d, errorResponse "bucket option cannot be empty.")
      else if optGet opts "access-key" = "" then
        (d, errorResponse "access-key option cannot be empty")
      else if optGet opts "secret-key" = "" then
        (d, errorResponse "secret-key cannot be empty.")
      else
        let config : serverConfig :=
          { endpoint := optGet opts "endpoint"
            bucket := optGet opts "bucket"
            accessKey := optGet opts "access-key"
            secretKey := optGet opts "secret-key" }
        let mntInfo : mountInfo :=
          { serverconfig := config
            mountPoint := filepathJoin d.mountRoot r.name
            connections := 0 }
        ({ d with volumes := insertVol d.volumes r.name mntInfo }, ({} : Response))

/-- `minfsDriver.Remove` (main.go:170).  `removeAll` is the outcome of
`os.RemoveAll(v.mountpoint)`. -/
def minfsDriver.Remove (d : minfsDriver) (removeAll : Option String) (r : Request) :
    minfsDriver × Response :=
  match lookupVol d.volumes r.name with
  | none => (d, responseError ("volume " ++ r.name ++ " not found"))
  | some v =>
    if v.connections = 0 then
      match removeAll with
      | some msg => (d, responseError msg)
      | none => ({ d with volumes := eraseVol d.volumes r.name }, ({} : Response))
    else
      (d, responseError ("volume " ++ r.name ++ " is currently used by a container"))

/-- `minfsDriver.Path` (main.go:191). -/
def minfsDriver.Path (d : minfsDriver) (r : Request) : Response :=
  match lookupVol d.volumes r.name with
  | none => responseError ("volume " ++ r.name ++ " not found")
  | some v => { mountpoint := v.mountPoint }

/-- Outcome of `os.Lstat(v.mountpoint)`: the path is absent
(`os.IsNotExist`), the stat succeeded on a (non-)directory, or the stat
failed with another error. -/
inductive LstatResult
  | notExist
  | ok (isDir : Bool)
  | failure (msg : String)
deriving DecidableEq

/-- Oracle for the external effects a `Mount` call may perform:
`os.Lstat`, `os.MkdirAll` and the backend `d.mountVolume`. -/
structure MountEnv where
  lstat : LstatResult
  mkdirAll : Option String
  mountVolume : Option String
deriving DecidableEq

/-- Result of a `Mount` call: the new driver state, the response, and
the number of backend mount invocations the call made. -/
structure MountOutcome where
  driver : minfsDriver
  resp : Response
  backendMounts : Nat
deriving DecidableEq

/-- The mount-point checks of `Mount` (main.go:221–232): `some resp`
means an early error return, `none` means the checks passed.  After a
successful `MkdirAll` the file info `fi` is nil, so the `IsDir` test is
skipped in that branch, exactly as in the source. -/
def checkMountPoint (env : MountEnv) (v : mountInfo) : Option Response :=
  match env.lstat with
  | .notExist =>
    match env.mkdirAll with
    | some msg => some (responseError msg)
    | none => none
  | .failure msg => some (responseError msg)
  | .ok isDir =>
    if isDir then none
    else some (responseError (v.mountPoint ++ " already exist and it's not a directory"))

/-- `minfsDriver.Mount` (main.go:205).  When `connections > 0` the count
is incremented and the backend is not called.  When `connections == 0`
the mount point is checked/created and the backend mount is invoked —
and, as in the source, `v.connections` is NOT updated afterwards. -/
def minfsDriver.Mount (d : minfsDriver) (env : MountEnv) (name : String) : MountOutcome :=
  match lookupVol d.volumes name with
  | none =>
    { driver := d
      resp := responseError ("volume " ++ name ++ " not found")
      backendMounts := 0 }
  | some v =>
    if 0 < v.connections then
      { driver := { d with volumes := insertVol d.volumes name { v with connections := v.connections + 1 } }
        resp := { mountpoint := v.mountPoint }
        backendMounts := 0 }
    else
      match checkMountPoint env v with
      | some resp => { driver := d, resp := resp, backendMounts := 0 }
      | none =>
        match env.mountVolume with
        | some msg => { driver := d, resp := responseError msg, backendMounts := 1 }
        | none => { driver := d, resp := { mountpoint := v.mountPoint }, backendMounts := 1 }

/-- Result of an `Unmount` call: the new driver state, the response, and
the number of backend unmount invocations the call made. -/
structure UnmountOutcome where
  driver : minfsDriver
  resp : Response
  backendUnmounts : Nat
deriving DecidableEq

/-- `minfsDriver.Unmount` (main.go:241).  `unmountVolume` is the outcome
of the backend `d.unmountVolume(v.mountpoint)`. -/
def minfsDriver.Unmount (d : minfsDriver) (unmountVolume : Option String) (name : String) :
    UnmountOutcome :=
  match lookupVol d.volumes name with
  | none =>
    { driver := d
      resp := responseError ("volume " ++ name ++ " not found")
      backendUnmounts := 0 }
  | some v =>
    if v.connections ≤ 1 then
      match unmountVolume with
      | some msg => { driver := d, resp := responseError msg, backendUnmounts := 1 }
      | none =>
        { driver := { d with volumes := insertVol d.volumes name { v with connections := 0 } }
          resp := ({} : Response)
          backendUnmounts := 1 }
    else
      { driver := { d with volumes := insertVol d.volumes name { v with connections := v.connections - 1 } }
        resp := ({} : Response)
        backendUnmounts := 0 }

/-- `minfsDriver.Get` (main.go:262). -/
def minfsDriver.Get (d : minfsDriver) (r : Request) : Response :=
  match lookupVol d.volumes r.name with
  | none => responseError ("volume " ++ r.name ++ " not found")
  | some v => { volume := some { name := r.name, mountpoint := v.mountPoint } }

/-- `minfsDriver.List` (main.go:276). -/
def minfsDriver.List (d : minfsDriver) : Response :=
  { volumes := d.volumes.map (fun p => { name := p.1, mountpoint := p.2.mountPoint }) }

/-- `minfsDriver.Capabilities` (main.go:289). -/
def minfsDriver.Capabilities (_d : minfsDriver) : Response :=
  { capabilities := some { scope := "local" } }

/-- One driver operation together with the oracle outcomes of the
external effects it may perform. -/
inductive Op where
  | create (r : Request)
  | mount (env : MountEnv) (name : String)
  | unmount (res : Option String) (name : String)
  | remove (removeAll : Option String) (r : Request)
  | path (r : Request)
  | get (r : Request)
  | list
  | capabilities
deriving DecidableEq

/-- The driver state after one operation. -/
def applyOp (d : minfsDriver) (op : Op) : minfsDriver :=
  match op with
  | .create r => (d.Create r).1
  | .mount env n => (d.Mount env n).driver
  | .unmount res n => (d.Unmount res n).driver
  | .remove ra r => (d.Remove ra r).1
  | .path _ => d
  | .get _ => d
  | .list => d
  | .capabilities => d

/-- The driver state after a sequence of operations from a fresh driver. -/
def runOps (root : String) (ops : List Op) : minfsDriver :=
  ops.foldl applyOp (newMinfsDriver root)

/-- Every registered volume has a non-negative connection count. -/
def nonNegCounts (d : minfsDriver) : Bool :=
  d.volumes.all (fun p => decide (0 ≤ p.2.connections))

/-- The connection count stored for a name, if registered. -/
def connectionsOf (d : minfsDriver) (n : String) : Option Int :=
  (lookupVol d.volumes n).map (fun v => v.connections)

/-- The mount-point checks all pass: the path is a directory already, or
it is absent and `MkdirAll` succeeds. -/
def fsCheckOk (env : MountEnv) : Prop :=
  env.lstat = .ok true ∨ (env.lstat = .notExist ∧ env.mkdirAll = none)

/-! ### Concrete fixtures used by evaluation theorems and witnesses -/

/-- An effect environment where every external call succeeds and the
mount point does not exist yet. -/
def envOk : MountEnv :=
  { lstat := .notExist, mkdirAll := none, mountVolume := none }

/-- An effect environment where the mount point is already a directory
and the backend mount succeeds. -/
def envDirOk : MountEnv :=
  { lstat := .ok true, mkdirAll := none, mountVolume := none }

/-- An effect environment where the backend mount fails. -/
def envMountFails : MountEnv :=
  { lstat := .ok true, mkdirAll := none, mountVolume := some "exit status 32" }

/-- A well-formed create request, as in the usage example of main.go:29. -/
def demoRequest : Request :=
  { name := "medical-imaging-store"
    options := some
      [("endpoint", "https://play.minio.io:9000"),
       ("bucket", "rao"),
       ("access-key", "Q3AM3UQ867SPQQA43P2F"),
       ("secret-key", "zuf-tfteSlswRu7BJ86wekitnifILbZam1KYY3TG")] }

/-- The driver right after creating the demo volume on a fresh driver. -/
def demoDriver0 : minfsDriver :=
  ((newMinfsDriver "/tmp").Create demoRequest).1

/-- First `Mount` of the sequence Mount, Mount, Unmount, Unmount. -/
def demoMount1 : MountOutcome :=
  demoDriver0.Mount envOk "medical-imaging-store"

/-- Second `Mount` of the sequence. -/
def demoMount2 : MountOutcome :=
  demoMount1.driver.Mount envDirOk "medical-imaging-store"

/-- First `Unmount` of the sequence. -/
def demoUnmount1 : UnmountOutcome :=
  demoMount2.driver.Unmount none "medical-imaging-store"

/-- Second `Unmount` of the sequence. -/
def demoUnmount2 : UnmountOutcome :=
  demoUnmount1.driver.Unmount none "medical-imaging-store"

/-- A server config used by small fixtures. -/
def configA : serverConfig :=
  { endpoint := "http://minio:9000", bucket := "b1", accessKey := "AK", secretKey := "SK" }

/-- A registered volume with no active connections. -/
def infoConn0 : mountInfo :=
  { serverconfig := configA, mountPoint := "/tmp/v1", connections := 0 }

/-- A registered volume with one active connection. -/
def infoConn1 : mountInfo :=
  { serverconfig := configA, mountPoint := "/tmp/v1", connections := 1 }

/-- A registered volume with two active connections. -/
def infoConn2 : mountInfo :=
  { serverconfig := configA, mountPoint := "/tmp/v1", connections := 2 }

/-- A driver holding `v1` at zero connections. -/
def driverConn0 : minfsDriver :=
  { mountRoot := "/tmp", volumes := [("v1", infoConn0)] }

/-- A driver holding `v1` at one connection. -/
def driverConn1 : minfsDriver :=
  { mountRoot := "/tmp", volumes := [("v1", infoConn1)] }

/-- A driver holding `v1` at two connections. -/
def driverConn2 : minfsDriver :=
  { mountRoot := "/tmp", volumes := [("v1", infoConn2)] }

/-- A create request re-using the registered name `v1` with new, valid options. -/
def dupRequest : Request :=
  { name := "v1"
    options := some
      [("endpoint", "http://other:9000"),
       ("bucket", "b2"),
       ("access-key", "AK2"),
       ("secret-key", "SK2")] }

/-- A create request with an empty `endpoint` option. -/
def badRequest : Request :=
  { name := "v2"
    options := some
      [("endpoint", ""), ("bucket", "b"), ("access-key", "a"), ("secret-key", "s")] }

/-! ### Helper lemmas on the association-list map -/

/-- Looking up a name right after writing it yields the written value. -/
theorem lookupVol_insertVol_self (vs : List (String × mountInfo)) (n : String) (v : mountInfo) :
    lookupVol (insertVol vs n v) n = some v := by
  induction vs with
  | nil => simp [insertVol, lookupVol]
  | cons q rest ih =>
    obtain ⟨k, w⟩ := q
    by_cases h : k = n <;> simp [insertVol, lookupVol, h, ih]

/-- Every entry of the map after a write is the written pair or an old entry. -/
theorem mem_insertVol (vs : List (String × mountInfo)) (n : String) (v : mountInfo)
    (p : String × mountInfo) (hp : p ∈ insertVol vs n v) : p = (n, v) ∨ p ∈ vs := by
  induction vs with
  | nil => simpa [insertVol] using hp
  | cons q rest ih =>
    obtain ⟨k, w⟩ := q
    by_cases h : k = n
    · simp only [insertVol, if_pos h, List.mem_cons] at hp
      rcases hp with h1 | h1
      · exact Or.inl h1
      · exact Or.inr (List.mem_cons_of_mem _ h1)
    · simp only [insertVol, if_neg h, List.mem_cons] at hp
      rcases hp with h1 | h1
      · exact Or.inr (by simp [h1])
      · rcases ih h1 with h2 | h2
        · exact Or.inl h2
        · exact Or.inr (List.mem_cons_of_mem _ h2)

/-- Every entry of the map after a delete was an entry before. -/
theorem mem_eraseVol (vs : List (String × mountInfo)) (n : String)
    (p : String × mountInfo) (hp : p ∈ eraseVol vs n) : p ∈ vs := by
  induction vs with
  | nil => simp [eraseVol] at hp
  | cons q rest ih =>
    obtain ⟨k, w⟩ := q
    by_cases h : k = n
    · simp only [eraseVol, if_pos h] at hp
      exact List.mem_cons_of_mem _ hp
    · simp only [eraseVol, if_neg h, List.mem_cons] at hp
      rcases hp with h1 | h1
      · simp [h1]
      · exact List.mem_cons_of_mem _ (ih h1)

/-- A successful lookup returns an entry of the map. -/
theorem lookupVol_mem (vs : List (String × mountInfo)) (n : String) (v : mountInfo)
    (h : lookupVol vs n = some v) : (n, v) ∈ vs := by
  induction vs with
  | nil => simp [lookupVol] at h
  | cons q rest ih =>
    obtain ⟨k, w⟩ := q
    by_cases hk : k = n
    · simp only [lookupVol, if_pos hk, Option.some.injEq] at h
      simp [hk, h]
    · simp only [lookupVol, if_neg hk] at h
      exact List.mem_cons_of_mem _ (ih h)

/-- `nonNegCounts` expressed as a predicate on the entries. -/
theorem nonNegCounts_iff (d : minfsDriver) :
    nonNegCounts d = true ↔ ∀ p ∈ d.volumes, 0 ≤ p.2.connections := by
  simp [nonNegCounts, List.all_eq_true]

/-- Writing a volume with a non-negative count preserves non-negativity. -/
theorem nonneg_insert (d : minfsDriver) (n : String) (v : mountInfo)
    (h : ∀ p ∈ d.volumes, 0 ≤ p.2.connections) (hv : 0 ≤ v.connections) :
    ∀ p ∈ insertVol d.volumes n v, 0 ≤ p.2.connections := by
  intro p hp
  rcases mem_insertVol d.volumes n v p hp with h1 | h1
  · subst h1; exact hv
  · exact h p h1

/-- Deleting a volume preserves non-negativity. -/
theorem nonneg_erase (d : minfsDriver) (n : String)
    (h : ∀ p ∈ d.volumes, 0 ≤ p.2.connections) :
    ∀ p ∈ eraseVol d.volumes n, 0 ≤ p.2.connections := by
  intro p hp
  exact h p (mem_eraseVol d.volumes n p hp)

/-! ### Shape lemmas: how each operation can change the volume map -/

/-- A `Create` call either leaves the driver unchanged or writes a fresh
`mountInfo` with zero connections under the requested name. -/
theorem Create_volumes_cases (d : minfsDriver) (r : Request) :
    (d.Create r).1 = d ∨
    ∃ info : mountInfo, info.connections = 0 ∧
      (d.Create r).1.volumes = insertVol d.volumes r.name info := by
  by_cases hn : r.name = ""
  · exact Or.inl (by simp [minfsDriver.Create, hn])
  · cases ho : r.options with
    | none => exact Or.inl (by simp [minfsDriver.Create, hn, ho])
    | some opts =>
      by_cases h1 : optGet opts "endpoint" = ""
      · exact Or.inl (by simp [minfsDriver.Create, hn, ho, h1])
      · by_cases h2 : optGet opts "bucket" = ""
        · exact Or.inl (by simp [minfsDriver.Create, hn, ho, h1, h2])
        · by_cases h3 : optGet opts "access-key" = ""
          · exact Or.inl (by simp [minfsDriver.Create, hn, ho, h1, h2, h3])
          · by_cases h4 : optGet opts "secret-key" = ""
            · exact Or.inl (by simp [minfsDriver.Create, hn, ho, h1, h2, h3, h4])
            · refine Or.inr ⟨{ serverconfig := { endpoint := optGet opts "endpoint", bucket := optGet opts "bucket", accessKey := optGet opts "access-key", secretKey := optGet opts "secret-key" }, mountPoint := filepathJoin d.mountRoot r.name, connections := 0 }, rfl, ?_⟩
              simp [minfsDriver.Create, hn, ho, h1, h2, h3, h4]

/-- A `Mount` call either leaves the driver unchanged or, when the volume
is referenced, increments its connection count. -/
theorem Mount_driver_cases (d : minfsDriver) (env : MountEnv) (n : String) :
    (d.Mount env n).driver = d ∨
    ∃ v : mountInfo, lookupVol d.volumes n = some v ∧ 0 < v.connections ∧
      (d.Mount env n).driver.volumes =
        insertVol d.volumes n { v with connections := v.connections + 1 } := by
  cases hl : lookupVol d.volumes n with
  | none => exact Or.inl (by simp [minfsDriver.Mount, hl])
  | some v =>
    by_cases hc : 0 < v.connections
    · exact Or.inr ⟨v, rfl, hc, by simp [minfsDriver.Mount, hl, hc]⟩
    · left
      cases hcp : checkMountPoint env v with
      | some resp => simp [minfsDriver.Mount, hl, hc, hcp]
      | none =>
        cases hm : env.mountVolume with
        | some m => simp [minfsDriver.Mount, hl, hc, hcp, hm]
        | none => simp [minfsDriver.Mount, hl, hc, hcp, hm]

/-- An `Unmount` call either leaves the driver unchanged, or zeroes the
volume's connection count, or decrements a count above one. -/
theorem Unmount_driver_cases (d : minfsDriver) (res : Option String) (n : String) :
    (d.Unmount res n).driver = d ∨
    (∃ v : mountInfo, lookupVol d.volumes n = some v ∧
      (d.Unmount res n).driver.volumes = insertVol d.volumes n { v with connections := 0 }) ∨
    (∃ v : mountInfo, lookupVol d.volumes n = some v ∧ 1 < v.connections ∧
      (d.Unmount res n).driver.volumes =
        insertVol d.volumes n { v with connections := v.connections - 1 }) := by
  cases hl : lookupVol d.volumes n with
  | none => exact Or.inl (by simp [minfsDriver.Unmount, hl])
  | some v =>
    by_cases hc : v.connections ≤ 1
    · cases hr : res with
      | some m => exact Or.inl (by simp [minfsDriver.Unmount, hl, hc, hr])
      | none => exact Or.inr (Or.inl ⟨v, rfl, by simp [minfsDriver.Unmount, hl, hc, hr]⟩)
    · have h1 : 1 < v.connections := by omega
      exact Or.inr (Or.inr ⟨v, rfl, h1, by simp [minfsDriver.Unmount, hl, hc]⟩)

/-- A `Remove` call either leaves the driver unchanged or deletes the
requested entry. -/
theorem Remove_volumes_cases (d : minfsDriver) (ra : Option String) (r : Request) :
    (d.Remove ra r).1 = d ∨ (d.Remove ra r).1.volumes = eraseVol d.volumes r.name := by
  cases hl : lookupVol d.volumes r.name with
  | none => exact Or.inl (by simp [minfsDriver.Remove, hl])
  | some v =>
    by_cases hc : v.connections = 0
    · cases hr : ra with
      | some m => exact Or.inl (by simp [minfsDriver.Remove, hl, hc, hr])
      | none => exact Or.inr (by simp [minfsDriver.Remove, hl, hc, hr])
    · exact Or.inl (by simp [minfsDriver.Remove, hl, hc])

/-- One operation preserves non-negativity of all connection counts. -/
theorem nonNegCounts_applyOp (d : minfsDriver) (op : Op) (h : nonNegCounts d = true) :
    nonNegCounts (applyOp d op) = true := by
  rw [nonNegCounts_iff] at h
  rw [nonNegCounts_iff]
  cases op with
  | create r =>
    rcases Create_volumes_cases d r with hc | ⟨info, hi0, hv⟩
    · simpa [applyOp, hc] using h
    · simp only [applyOp]
      rw [hv]
      exact nonneg_insert d r.name info h (by rw [hi0])
  | mount env n =>
    rcases Mount_driver_cases d env n with hc | ⟨v, _, hpos, hv⟩
    · simpa [applyOp, hc] using h
    · simp only [applyOp]
      rw [hv]
      exact nonneg_insert d n _ h (by show (0 : Int) ≤ v.connections + 1; omega)
  | unmount res n =>
    rcases Unmount_driver_cases d res n with hc | ⟨v, _, hv⟩ | ⟨v, _, hgt, hv⟩
    · simpa [applyOp, hc] using h
    · simp only [applyOp]
      rw [hv]
      exact nonneg_insert d n _ h (by show (0 : Int) ≤ 0; omega)
    · simp only [applyOp]
      rw [hv]
      exact nonneg_insert d n _ h (by show (0 : Int) ≤ v.connections - 1; omega)
  | remove ra r =>
    rcases Remove_volumes_cases d ra r with hc | hv
    · simpa [applyOp, hc] using h
    · simp only [applyOp]
      rw [hv]
      exact nonneg_erase d r.name h
  | path r => simpa [applyOp] using h
  | get r => simpa [applyOp] using h
  | list => simpa [applyOp] using h
  | capabilities => simpa [applyOp] using h

/-- Folding any operation list preserves non-negativity. -/
theorem nonNegCounts_foldl (ops : List Op) (d : minfsDriver) (h : nonNegCounts d = true) :
    nonNegCounts (ops.foldl applyOp d) = true := by
  induction ops generalizing d with
  | nil => simpa using h
  | cons op rest ih => exact ih (applyOp d op) (nonNegCounts_applyOp d op h)

/-! ### Claim theorems -/

/-- C8: for every volume in the registry and every sequence of Create,
Mount, Unmount, Remove, Path, Get, List and Capabilities operations run
from a fresh driver, the volume's `refCount` (`connections`) is never
negative. -/
theorem refcount_never_negative (root : String) (ops : List Op) :
    nonNegCounts (runOps root ops) = true :=
  nonNegCounts_foldl ops (newMinfsDriver root) rfl

/-- C10: every `Mount` call that returns an error — unregistered name,
mount-point check failure, or backend mount failure — leaves the
registry state entirely unchanged, including the volume's `refCount` and
its registration. -/
theorem Mount_error_leaves_registry_unchanged (d : minfsDriver) (env : MountEnv) (n : String)
    (h : (d.Mount env n).resp.err ≠ "") :
    (d.Mount env n).driver = d := by
  cases hl : lookupVol d.volumes n with
  | none => simp [minfsDriver.Mount, hl]
  | some v =>
    by_cases hc : 0 < v.connections
    · exact absurd (by simp [minfsDriver.Mount, hl, hc]) h
    · cases hcp : checkMountPoint env v with
      | some resp => simp [minfsDriver.Mount, hl, hc, hcp]
      | none =>
        cases hm : env.mountVolume with
        | some m => simp [minfsDriver.Mount, hl, hc, hcp, hm]
        | none => simp [minfsDriver.Mount, hl, hc, hcp, hm]

/-- C10 witness: mounting an unregistered name on a fresh driver fails
and leaves the driver unchanged. -/
theorem Mount_error_leaves_registry_unchanged_witness :
    ((newMinfsDriver "/tmp").Mount envOk "v1").driver = newMinfsDriver "/tmp" :=
  Mount_error_leaves_registry_unchanged (newMinfsDriver "/tmp") envOk "v1" (by decide)

/-- C3: `Unmount` with `refCount <= 1` invokes the backend unmount and on
its success sets `refCount` to 0, while on backend failure it returns the
backend's error and leaves the state unchanged; `Unmount` with
`refCount > 1` decrements the count and makes no backend call; `Unmount`
on an unregistered name fails with not-found. -/
theorem Unmount_refcount_semantics (d : minfsDriver) (res : Option String) (n : String) :
    (lookupVol d.volumes n = none →
      (d.Unmount res n).resp = responseError ("volume " ++ n ++ " not found") ∧
      (d.Unmount res n).driver = d) ∧
    (∀ v, lookupVol d.volumes n = some v → v.connections ≤ 1 →
      (d.Unmount res n).backendUnmounts = 1 ∧
      (res = none →
        (d.Unmount res n).driver =
          { d with volumes := insertVol d.volumes n { v with connections := 0 } } ∧
        (d.Unmount res n).resp.err = "") ∧
      (∀ msg, res = some msg →
        (d.Unmount res n).resp = responseError msg ∧
        (d.Unmount res n).driver = d)) ∧
    (∀ v, lookupVol d.volumes n = some v → 1 < v.connections →
      (d.Unmount res n).backendUnmounts = 0 ∧
      (d.Unmount res n).driver =
        { d with volumes := insertVol d.volumes n { v with connections := v.connections - 1 } } ∧
      (d.Unmount res n).resp.err = "") := by
  refine ⟨?_, ?_, ?_⟩
  · intro hl
    simp [minfsDriver.Unmount, hl, responseError]
  · intro v hl hle
    cases res with
    | none => simp [minfsDriver.Unmount, hl, hle]
    | some msg => simp [minfsDriver.Unmount, hl, hle, responseError]
  · intro v hl hgt
    have hle : ¬ v.connections ≤ 1 := by omega
    simp [minfsDriver.Unmount, hl, hle]

/-- C3 witness: unmounting `v1` at one connection with a succeeding
backend makes exactly one backend call and zeroes the count. -/
theorem Unmount_refcount_semantics_witness :
    (driverConn1.Unmount none "v1").backendUnmounts = 1 ∧
    (driverConn1.Unmount none "v1").driver =
      { driverConn1 with
        volumes := insertVol driverConn1.volumes "v1" { infoConn1 with connections := 0 } } := by
  have h := (Unmount_refcount_semantics driverConn1 none "v1").2.1 infoConn1 (by decide) (by decide)
  exact ⟨h.1, (h.2.1 rfl).1⟩

/-- C5: `Remove` on a registered volume with `refCount > 0` fails with
the in-use error and leaves the driver (registration, refCount, mount
path) unchanged; `Remove` on an unregistered name fails with not-found. -/
theorem Remove_inuse_or_notfound_fails_unchanged (d : minfsDriver) (removeAll : Option String)
    (r : Request) :
    (lookupVol d.volumes r.name = none →
      (d.Remove removeAll r).2 = responseError ("volume " ++ r.name ++ " not found") ∧
      (d.Remove removeAll r).1 = d) ∧
    (∀ v, lookupVol d.volumes r.name = some v → 0 < v.connections →
      (d.Remove removeAll r).2 =
        responseError ("volume " ++ r.name ++ " is currently used by a container") ∧
      (d.Remove removeAll r).1 = d) := by
  constructor
  · intro hl
    simp [minfsDriver.Remove, hl]
  · intro v hl hpos
    have hz : ¬ v.connections = 0 := by omega
    simp [minfsDriver.Remove, hl, hz]

/-- C5 witness: removing `v1` while it has one connection fails with the
in-use error and changes nothing. -/
theorem Remove_inuse_or_notfound_fails_unchanged_witness :
    (driverConn1.Remove none { name := "v1", options := none }).1 = driverConn1 ∧
    (driverConn1.Remove none { name := "v1", options := none }).2 =
      responseError ("volume " ++ "v1" ++ " is currently used by a container") := by
  have h := (Remove_inuse_or_notfound_fails_unchanged driverConn1 none
      { name := "v1", options := none }).2 infoConn1 (by decide) (by decide)
  exact ⟨h.2, h.1⟩

/-- C6: for a registered volume at `refCount == 0` whose mount-point
checks pass, a failing backend mount makes the `Mount` call return the
backend error with the whole driver state (hence `refCount == 0`)
unchanged, and a subsequent `Mount` whose mount-point checks pass invokes
the backend mount again rather than skipping it. -/
theorem Mount_backend_failure_leaves_state_and_retries (d : minfsDriver) (env env2 : MountEnv)
    (n : String) (v : mountInfo) (msg : String)
    (hv : lookupVol d.volumes n = some v) (h0 : v.connections = 0)
    (hfs : fsCheckOk env) (hfail : env.mountVolume = some msg) (hfs2 : fsCheckOk env2) :
    (d.Mount env n).resp = responseError msg ∧
    (d.Mount env n).driver = d ∧
    (d.Mount env n).backendMounts = 1 ∧
    ((d.Mount env n).driver.Mount env2 n).backendMounts = 1 := by
  have hnpos : ¬ 0 < v.connections := by omega
  have hcp : checkMountPoint env v = none := by
    rcases hfs with h | ⟨h1, h2⟩
    · simp [checkMountPoint, h]
    · simp [checkMountPoint, h1, h2]
  have hcp2 : checkMountPoint env2 v = none := by
    rcases hfs2 with h | ⟨h1, h2⟩
    · simp [checkMountPoint, h]
    · simp [checkMountPoint, h1, h2]
  have main : d.Mount env n = { driver := d, resp := responseError msg, backendMounts := 1 } := by
    simp [minfsDriver.Mount, hv, hnpos, hcp, hfail]
  refine ⟨by rw [main], by rw [main], by rw [main], ?_⟩
  rw [main]
  cases hm2 : env2.mountVolume with
  | none => simp [minfsDriver.Mount, hv, hnpos, hcp2, hm2]
  | some m => simp [minfsDriver.Mount, hv, hnpos, hcp2, hm2]

/-- C6 witness: a failed backend mount of `v1` leaves the driver
unchanged and the retry reaches the backend again. -/
theorem Mount_backend_failure_leaves_state_and_retries_witness :
    (driverConn0.Mount envMountFails "v1").driver = driverConn0 ∧
    ((driverConn0.Mount envMountFails "v1").driver.Mount envDirOk "v1").backendMounts = 1 := by
  have h := Mount_backend_failure_leaves_state_and_retries driverConn0 envMountFails envDirOk
      "v1" infoConn0 "exit status 32" (by decide) (by decide) (Or.inl rfl) (by decide) (Or.inl rfl)
  exact ⟨h.2.1, h.2.2.2⟩

/-- C7: a `Create` request with an empty name, an absent options map, or
any of the four options endpoint, bucket, access-key, secret-key empty or
missing fails with an error and registers nothing, so `List` afterwards
shows no new entry. -/
theorem Create_invalid_arguments_registers_nothing (d : minfsDriver) (r : Request)
    (h : r.name = "" ∨ r.options = none ∨
      ∃ opts, r.options = some opts ∧
        (optGet opts "endpoint" = "" ∨ optGet opts "bucket" = "" ∨
         optGet opts "access-key" = "" ∨ optGet opts "secret-key" = "")) :
    (d.Create r).2.err ≠ "" ∧ (d.Create r).1 = d ∧ (d.Create r).1.List = d.List := by
  have key : (d.Create r).2.err ≠ "" ∧ (d.Create r).1 = d := by
    rcases h with hn | ho | ⟨opts, ho, hopt⟩
    · simp [minfsDriver.Create, hn, errorResponse]
    · by_cases hn : r.name = ""
      · simp [minfsDriver.Create, hn, errorResponse]
      · simp [minfsDriver.Create, hn, ho, errorResponse]
    · by_cases hn : r.name = ""
      · simp [minfsDriver.Create, hn, errorResponse]
      · simp only [minfsDriver.Create, ho, if_neg hn]
        split_ifs with h1 h2 h3 h4
        · simp [errorResponse]
        · simp [errorResponse]
        · simp [errorResponse]
        · simp [errorResponse]
        · exfalso
          rcases hopt with hh | hh | hh | hh
          · exact h1 hh
          · exact h2 hh
          · exact h3 hh
          · exact h4 hh
  exact ⟨key.1, key.2, by rw [key.2]⟩

/-- C7 witness: a create request with an empty endpoint option fails and
registers nothing. -/
theorem Create_invalid_arguments_registers_nothing_witness :
    (driverConn0.Create badRequest).2.err ≠ "" ∧ (driverConn0.Create badRequest).1 = driverConn0 := by
  have h := Create_invalid_arguments_registers_nothing driverConn0 badRequest
      (Or.inr (Or.inr ⟨[("endpoint", ""), ("bucket", "b"), ("access-key", "a"), ("secret-key", "s")],
        rfl, Or.inl (by decide)⟩))
  exact ⟨h.1, h.2.1⟩

/-- C4 counterexample: creating the already-registered name `v1` with
valid options succeeds (no AlreadyExists failure) and replaces the
existing registration. -/
theorem Create_duplicate_name_counterexample :
    (driverConn2.Create dupRequest).2.err = "" ∧
    lookupVol (driverConn2.Create dupRequest).1.volumes "v1" ≠ some infoConn2 := by decide

/-- C4 amended: the source's duplicate-name branch is empty, so a
`Create` call with an already-registered name and all four options
non-empty does not fail with AlreadyExists: it succeeds and replaces the
existing registration with a fresh one built from the new options. -/
theorem Create_duplicate_name_overwrites (d : minfsDriver) (r : Request)
    (opts : List (String × String))
    (hname : ¬ r.name = "") (hopts : r.options = some opts)
    (he : ¬ optGet opts "endpoint" = "") (hb : ¬ optGet opts "bucket" = "")
    (ha : ¬ optGet opts "access-key" = "") (hs : ¬ optGet opts "secret-key" = "")
    (_hreg : lookupVol d.volumes r.name ≠ none) :
    (d.Create r).2.err = "" ∧
    (d.Create r).1 =
      { d with volumes := insertVol d.volumes r.name ({ serverconfig := { endpoint := optGet opts "endpoint", bucket := optGet opts "bucket", accessKey := optGet opts "access-key", secretKey := optGet opts "secret-key" }, mountPoint := filepathJoin d.mountRoot r.name, connections := 0 }) } := by
  simp [minfsDriver.Create, hopts, hname, he, hb, ha, hs]

/-- C4 witness: re-creating the registered name `v1` with fresh valid
options succeeds. -/
theorem Create_duplicate_name_overwrites_witness :
    (driverConn2.Create dupRequest).2.err = "" :=
  (Create_duplicate_name_overwrites driverConn2 dupRequest
    [("endpoint", "http://other:9000"), ("bucket", "b2"), ("access-key", "AK2"), ("secret-key", "SK2")]
    (by decide) rfl (by decide) (by decide) (by decide) (by decide) (by decide)).1

/-- C9: a `Create` call whose name is already registered and whose
options are all non-empty succeeds and stores a fresh `VolumeState` built
from the new options under that name — `refCount` reset to 0, mount path
recomputed, and the previously stored server configuration discarded
(the stored value does not depend on the old registration). -/
theorem Create_existing_name_resets_volume_state (d : minfsDriver) (r : Request)
    (opts : List (String × String)) (old : mountInfo)
    (hname : ¬ r.name = "") (hopts : r.options = some opts)
    (he : ¬ optGet opts "endpoint" = "") (hb : ¬ optGet opts "bucket" = "")
    (ha : ¬ optGet opts "access-key" = "") (hs : ¬ optGet opts "secret-key" = "")
    (_hreg : lookupVol d.volumes r.name = some old) :
    (d.Create r).2.err = "" ∧
    lookupVol (d.Create r).1.volumes r.name = some
      { serverconfig :=
          { endpoint := optGet opts "endpoint", bucket := optGet opts "bucket"
            accessKey := optGet opts "access-key", secretKey := optGet opts "secret-key" }
        mountPoint := filepathJoin d.mountRoot r.name
        connections := 0 } := by
  constructor
  · simp [minfsDriver.Create, hopts, hname, he, hb, ha, hs]
  · simp [minfsDriver.Create, hopts, hname, he, hb, ha, hs, lookupVol_insertVol_self]

/-- C9 witness: re-creating `v1` (previously at one connection with
`configA`) stores the fresh state built from the new options. -/
theorem Create_existing_name_resets_volume_state_witness :
    lookupVol (driverConn1.Create dupRequest).1.volumes "v1" = some
      { serverconfig :=
          { endpoint := "http://other:9000", bucket := "b2", accessKey := "AK2", secretKey := "SK2" }
        mountPoint := "/tmp/v1"
        connections := 0 } := by
  have h := Create_existing_name_resets_volume_state driverConn1 dupRequest
      [("endpoint", "http://other:9000"), ("bucket", "b2"), ("access-key", "AK2"), ("secret-key", "SK2")]
      infoConn1 (by decide) rfl (by decide) (by decide) (by decide) (by decide) (by decide)
  exact h.2

/-- C1 (the code evaluated at the claim's input): on a fresh volume the
sequence Mount, Mount, Unmount, Unmount triggers TWO backend mount calls
and TWO backend unmount calls, and `refCount` stays 0 at every step —
the source's `Mount` never sets the count after a first successful
backend mount, so the claimed counts (one each) and the claimed
`refCount` trace 0, 1, 2, 1, 0 do not hold. -/
theorem mount_unmount_sequence_backend_call_counts :
    demoMount1.backendMounts + demoMount2.backendMounts = 2 ∧
    demoUnmount1.backendUnmounts + demoUnmount2.backendUnmounts = 2 ∧
    connectionsOf demoDriver0 "medical-imaging-store" = some 0 ∧
    connectionsOf demoMount1.driver "medical-imaging-store" = some 0 ∧
    connectionsOf demoMount2.driver "medical-imaging-store" = some 0 ∧
    connectionsOf demoUnmount1.driver "medical-imaging-store" = some 0 ∧
    connectionsOf demoUnmount2.driver "medical-imaging-store" = some 0 := by decide

/-- C2 (the code evaluated at the claim's input): a first `Mount` of a
registered volume at `refCount == 0` with a succeeding backend invokes
the backend once and returns the mount path, but leaves `refCount` at 0
instead of setting it to 1 as the claim states. -/
theorem first_mount_success_leaves_refcount_zero :
    demoMount1.resp.err = "" ∧
    demoMount1.resp.mountpoint = "/tmp/medical-imaging-store" ∧
    demoMount1.backendMounts = 1 ∧
    connectionsOf demoMount1.driver "medical-imaging-store" = some 0 ∧
    ¬ connectionsOf demoMount1.driver "medical-imaging-store" = some 1 := by decide

end Minfs

